import Mathlib

/-!
Verification development for the `nix-ugreen-leds-controller` Go service.

The Go sources are shallowly embedded: pure helpers become Lean functions,
Go `string` values are modelled as `String` (with character-level helpers on
`List Char` mirroring `fmt.Sprintf("%d")`, `strconv.Atoi` and
`strings.Fields`), Go `int` is modelled as `ℤ` (unbounded; none of the
verified behaviors depends on 64-bit overflow), `float64` arithmetic in the
network monitor is modelled as exact fraction arithmetic (every concrete
value exercised here is exactly representable in binary floating point), and
I/O (sysfs reads/writes, external commands) is modelled by explicit inputs
and by traces of write events.
-/

/-- RGB color triple, from `internal/config/config.go` (`type RGB struct`). -/
structure RGB where
  R : ℤ
  G : ℤ
  B : ℤ
deriving DecidableEq

/-- Character for a decimal digit `d` (intended for `d < 10`). -/
def digitChar (d : ℕ) : Char := Char.ofNat (48 + d)

/-- Little-endian decimal digit characters of `n`, with explicit fuel so that
the recursion is structural. `natDigitsAux fuel n` is correct once
`n ≤ fuel`. -/
def natDigitsAux : ℕ → ℕ → List Char
  | 0, _ => []
  | fuel + 1, n => if n = 0 then [] else digitChar (n % 10) :: natDigitsAux fuel (n / 10)

/-- Decimal representation of a natural number, most significant digit first,
as produced by Go's `fmt.Sprintf("%d", n)` for nonnegative values. -/
def natRepr (n : ℕ) : List Char := if n = 0 then ['0'] else (natDigitsAux n n).reverse

/-- Decimal representation of an integer, as produced by Go's
`fmt.Sprintf("%d", z)`: a leading minus sign for negatives, then digits. -/
def intRepr (z : ℤ) : List Char := if z < 0 then '-' :: natRepr z.natAbs else natRepr z.natAbs

/-- Test for an ASCII decimal digit character. -/
def isDigitChar (c : Char) : Bool := decide (48 ≤ c.toNat ∧ c.toNat ≤ 57)

/-- Test for an ASCII whitespace character, modelling `unicode.IsSpace` as
used by Go's `strings.Fields` (the strings handled by this program are
ASCII: space, tab, newline, vertical tab, form feed, carriage return). -/
def isSpaceChar (c : Char) : Bool :=
  decide (c.toNat = 32 ∨ c.toNat = 9 ∨ c.toNat = 10 ∨ c.toNat = 11 ∨ c.toNat = 12 ∨ c.toNat = 13)

/-- Accumulator-passing worker for `strings.Fields`: splits a character list
around maximal runs of whitespace. `acc` holds the current in-progress field,
reversed. -/
def fieldsAux : List Char → List Char → List (List Char)
  | [], acc => if acc.isEmpty then [] else [acc.reverse]
  | c :: rest, acc =>
    if isSpaceChar c then
      if acc.isEmpty then fieldsAux rest [] else acc.reverse :: fieldsAux rest []
    else fieldsAux rest (c :: acc)

/-- Model of Go's `strings.Fields` on character lists. -/
def goFieldsChars (cs : List Char) : List (List Char) := fieldsAux cs []

/-- Model of Go's `strings.Fields` on strings. -/
def goFields (s : String) : List String := (goFieldsChars s.data).map fun cs => ⟨cs⟩

/-- Horner evaluation of a digit-character list, most significant digit
first, as performed by decimal integer parsing. -/
def parseDigitsVal (cs : List Char) : ℕ :=
  cs.foldl (fun acc c => acc * 10 + (c.toNat - 48)) 0

/-- Parse an unsigned run of decimal digits; fails on an empty list or on any
non-digit character, like the digit loop of Go's `strconv.Atoi`. -/
def parseDigits (cs : List Char) : Option ℕ :=
  if cs.isEmpty then none
  else if cs.all isDigitChar then some (parseDigitsVal cs) else none

/-- Model of Go's `strconv.Atoi`: optional sign followed by decimal digits;
`none` models the error return. (Go's `int` is 64-bit; this model is
unbounded, which is faithful for every value this program produces.) -/
def atoi (cs : List Char) : Option ℤ :=
  match cs with
  | [] => none
  | c :: rest =>
    if c = '-' then (parseDigits rest).map (fun n : ℕ => -(n : ℤ))
    else if c = '+' then (parseDigits rest).map (fun n : ℕ => (n : ℤ))
    else (parseDigits (c :: rest)).map (fun n : ℕ => (n : ℤ))

/-- Value of `strconv.Atoi` with the error ignored, as in
`r, _ := strconv.Atoi(parts[0])` in `parseRGB`: a failed parse leaves the
zero value. -/
def atoiOr0 (cs : List Char) : ℤ := (atoi cs).getD 0

/-- Embedding of `parseRGB` from `internal/config/config.go`: split on
whitespace; anything but exactly 3 fields yields the default white;
otherwise each field is parsed with `strconv.Atoi`, errors ignored. -/
def parseRGB (cs : List Char) : RGB :=
  match goFieldsChars cs with
  | [p1, p2, p3] => ⟨atoiOr0 p1, atoiOr0 p2, atoiOr0 p3⟩
  | _ => ⟨255, 255, 255⟩

/-- Character-level result of `fmt.Sprintf("%d %d %d", c.R, c.G, c.B)`, the
formatting used by `RGB.String` in config.go and by `LED.SetColor` in
led.go. -/
def rgbChars (c : RGB) : List Char :=
  intRepr c.R ++ (' ' :: (intRepr c.G ++ (' ' :: intRepr c.B)))

/-- String-level result of `fmt.Sprintf("%d %d %d", c.R, c.G, c.B)`. -/
def rgbString (c : RGB) : String := ⟨rgbChars c⟩

/-- Value of a little-endian digit-character list. -/
def valLE : List Char → ℕ
  | [] => 0
  | c :: rest => (c.toNat - 48) + 10 * valLE rest

theorem digitChar_toNat {d : ℕ} (h : d < 10) : (digitChar d).toNat = 48 + d := by
  interval_cases d <;> decide

theorem isDigitChar_digitChar {d : ℕ} (h : d < 10) : isDigitChar (digitChar d) = true := by
  interval_cases d <;> decide

theorem natDigitsAux_all_digits (fuel n : ℕ) :
    (natDigitsAux fuel n).all isDigitChar = true := by
  induction fuel generalizing n with
  | zero => rfl
  | succ fuel ih =>
    unfold natDigitsAux
    by_cases h : n = 0
    · simp [h]
    · simp only [h, if_false, List.all_cons, Bool.and_eq_true]
      exact ⟨isDigitChar_digitChar (Nat.mod_lt n (by omega)), ih (n / 10)⟩

theorem foldl_reverse_val (l : List Char) (a : ℕ) :
    l.reverse.foldl (fun acc c => acc * 10 + (c.toNat - 48)) a
      = a * 10 ^ l.length + valLE l := by
  induction l generalizing a with
  | nil => simp [valLE]
  | cons c rest ih =>
    simp only [List.reverse_cons, List.foldl_append, List.foldl_cons, List.foldl_nil,
      valLE, List.length_cons, ih a]
    ring

theorem valLE_natDigitsAux (fuel : ℕ) : ∀ n : ℕ, n ≤ fuel → valLE (natDigitsAux fuel n) = n := by
  induction fuel with
  | zero => intro n h; interval_cases n; rfl
  | succ fuel ih =>
    intro n h
    unfold natDigitsAux
    by_cases h0 : n = 0
    · simp [h0, valLE]
    · have hlt : n / 10 < n := Nat.div_lt_self (by omega) (by omega)
      simp only [h0, if_false, valLE, ih (n / 10) (by omega),
        digitChar_toNat (Nat.mod_lt n (by omega))]
      omega

theorem natRepr_ne_nil (n : ℕ) : natRepr n ≠ [] := by
  unfold natRepr
  by_cases h : n = 0
  · simp [h]
  · obtain ⟨m, rfl⟩ := Nat.exists_eq_succ_of_ne_zero h
    simp [natDigitsAux]

theorem natRepr_all_digits (n : ℕ) : (natRepr n).all isDigitChar = true := by
  unfold natRepr
  by_cases h : n = 0
  · simp [h]; decide
  · simp only [h, if_false, List.all_reverse]
    exact natDigitsAux_all_digits n n

theorem parseDigits_natRepr (n : ℕ) : parseDigits (natRepr n) = some n := by
  unfold parseDigits
  rw [if_neg (by simpa [List.isEmpty_iff] using natRepr_ne_nil n), if_pos (natRepr_all_digits n)]
  unfold natRepr
  by_cases h : n = 0
  · simp [h, parseDigitsVal]
  · simp only [h, if_false, parseDigitsVal, foldl_reverse_val,
      valLE_natDigitsAux n n le_rfl, Nat.zero_mul, Nat.zero_add]

theorem digit_ne_minus {c : Char} (h : isDigitChar c = true) : c ≠ '-' := by
  rintro rfl
  simp [isDigitChar] at h

theorem digit_ne_plus {c : Char} (h : isDigitChar c = true) : c ≠ '+' := by
  rintro rfl
  simp [isDigitChar] at h

theorem atoi_cons (c : Char) (rest : List Char) :
    atoi (c :: rest) =
      (if c = '-' then (parseDigits rest).map (fun n : ℕ => -(n : ℤ))
       else if c = '+' then (parseDigits rest).map (fun n : ℕ => (n : ℤ))
       else (parseDigits (c :: rest)).map (fun n : ℕ => (n : ℤ))) := rfl

theorem atoi_intRepr (z : ℤ) : atoi (intRepr z) = some z := by
  unfold intRepr
  by_cases hz : z < 0
  · rw [if_pos hz, atoi_cons, if_pos rfl, parseDigits_natRepr]
    simp only [Option.map_some']
    congr 1
    omega
  · rw [if_neg hz]
    obtain ⟨c, rest, hcr⟩ := List.exists_cons_of_ne_nil (natRepr_ne_nil z.natAbs)
    have hall := natRepr_all_digits z.natAbs
    rw [hcr] at hall ⊢
    simp only [List.all_cons, Bool.and_eq_true] at hall
    rw [atoi_cons, if_neg (digit_ne_minus hall.1), if_neg (digit_ne_plus hall.1), ← hcr,
      parseDigits_natRepr]
    simp only [Option.map_some']
    congr 1
    omega

theorem atoiOr0_intRepr (z : ℤ) : atoiOr0 (intRepr z) = z := by
  simp [atoiOr0, atoi_intRepr]

theorem digit_not_space {c : Char} (h : isDigitChar c = true) : isSpaceChar c = false := by
  simp only [isDigitChar, decide_eq_true_eq] at h
  simp only [isSpaceChar, decide_eq_false_iff_not]
  omega

theorem intRepr_ne_nil (z : ℤ) : intRepr z ≠ [] := by
  unfold intRepr
  by_cases hz : z < 0
  · simp [hz]
  · simpa [hz] using natRepr_ne_nil z.natAbs

theorem intRepr_no_space (z : ℤ) : (intRepr z).all (fun c => !isSpaceChar c) = true := by
  have hdig : ∀ m : ℕ, (natRepr m).all (fun c => !isSpaceChar c) = true := by
    intro m
    have h := natRepr_all_digits m
    rw [List.all_eq_true] at h ⊢
    intro c hc
    simpa using digit_not_space (h c hc)
  unfold intRepr
  by_cases hz : z < 0
  · simp only [hz, if_true, List.all_cons, Bool.and_eq_true]
    exact ⟨by decide, hdig z.natAbs⟩
  · simpa [hz] using hdig z.natAbs

theorem fieldsAux_token (t : List Char) (ht : t.all (fun c => !isSpaceChar c) = true) :
    ∀ rest acc, fieldsAux (t ++ rest) acc = fieldsAux rest (t.reverse ++ acc) := by
  induction t with
  | nil => intro rest acc; simp
  | cons c t ih =>
    intro rest acc
    simp only [List.all_cons, Bool.and_eq_true, Bool.not_eq_true'] at ht
    simp only [List.cons_append, fieldsAux, ht.1, Bool.false_eq_true, if_false,
      List.reverse_cons, List.append_assoc, List.cons_append, List.nil_append]
    exact ih ht.2 rest (c :: acc)

theorem fieldsAux_space (rest : List Char) (acc : List Char) :
    fieldsAux (' ' :: rest) acc =
      if acc.isEmpty then fieldsAux rest [] else acc.reverse :: fieldsAux rest [] := by
  simp [fieldsAux, isSpaceChar]

theorem fieldsAux_last (t : List Char) (ht : t.all (fun c => !isSpaceChar c) = true)
    (hn : t ≠ []) : fieldsAux t [] = [t] := by
  have h := fieldsAux_token t ht [] []
  simp only [List.append_nil] at h
  rw [h]
  unfold fieldsAux
  rw [if_neg (by simpa [List.isEmpty_iff] using fun hr => hn (by simpa using congrArg List.reverse hr)),
    List.reverse_reverse]

theorem goFieldsChars_three (t1 t2 t3 : List Char)
    (h1 : t1.all (fun c => !isSpaceChar c) = true) (hn1 : t1 ≠ [])
    (h2 : t2.all (fun c => !isSpaceChar c) = true) (hn2 : t2 ≠ [])
    (h3 : t3.all (fun c => !isSpaceChar c) = true) (hn3 : t3 ≠ []) :
    goFieldsChars (t1 ++ (' ' :: (t2 ++ (' ' :: t3)))) = [t1, t2, t3] := by
  unfold goFieldsChars
  rw [fieldsAux_token t1 h1, List.append_nil, fieldsAux_space,
    if_neg (by simpa [List.isEmpty_iff] using fun h => hn1 (by simpa using congrArg List.reverse h)),
    List.reverse_reverse, fieldsAux_token t2 h2, List.append_nil, fieldsAux_space,
    if_neg (by simpa [List.isEmpty_iff] using fun h => hn2 (by simpa using congrArg List.reverse h)),
    List.reverse_reverse, fieldsAux_last t3 h3 hn3]

/-- C8: formatting an RGB value with `fmt.Sprintf("%d %d %d", ...)` and parsing
the result back with `parseRGB` returns the original value, for arbitrary
(also out-of-range or negative) integer components. -/
theorem parseRGB_rgbChars_roundtrip (c : RGB) : parseRGB (rgbChars c) = c := by
  unfold parseRGB rgbChars
  rw [goFieldsChars_three _ _ _ (intRepr_no_space c.R) (intRepr_ne_nil c.R)
    (intRepr_no_space c.G) (intRepr_ne_nil c.G) (intRepr_no_space c.B) (intRepr_ne_nil c.B)]
  simp [atoiOr0_intRepr]

/-- C9: the white default of `parseRGB` is taken exactly on inputs that do
not split into 3 whitespace-separated fields; with exactly 3 fields, a field
that `strconv.Atoi` rejects contributes 0 instead. -/
theorem parseRGB_default_characterization :
    (∀ cs : List Char, (goFieldsChars cs).length ≠ 3 → parseRGB cs = ⟨255, 255, 255⟩)
    ∧ (∀ cs p1 p2 p3, goFieldsChars cs = [p1, p2, p3] →
        parseRGB cs = ⟨atoiOr0 p1, atoiOr0 p2, atoiOr0 p3⟩)
    ∧ parseRGB [] = ⟨255, 255, 255⟩
    ∧ parseRGB "255 x 0".data = ⟨255, 0, 0⟩ := by
  refine ⟨?_, ?_, by decide, by decide⟩
  · intro cs hlen
    unfold parseRGB
    rcases h : goFieldsChars cs with _ | ⟨p1, _ | ⟨p2, _ | ⟨p3, _ | ⟨p4, tl⟩⟩⟩⟩ <;>
      simp_all
  · intro cs p1 p2 p3 h
    unfold parseRGB
    rw [h]

/-- Closed witness for the conditional parts of the C9 theorem: the input
consisting of a single character does not split into 3 fields and parses to
white, and an input splitting into the 3 fields of "1 2 3" parses
componentwise. -/
theorem parseRGB_default_characterization_witness :
    parseRGB ['7'] = ⟨255, 255, 255⟩
    ∧ parseRGB "1 2 3".data = ⟨atoiOr0 ['1'], atoiOr0 ['2'], atoiOr0 ['3']⟩ :=
  ⟨parseRGB_default_characterization.1 ['7'] (by decide),
   parseRGB_default_characterization.2.1 "1 2 3".data ['1'] ['2'] ['3'] (by decide)⟩

/-- Observable actions of the disk monitor: sysfs LED attribute writes (from
`internal/led/led.go`) and invocations of the external `smartctl` command. -/
inductive Event where
  | setTrigger (led : String) (value : String)
  | setInvert (led : String) (value : ℤ)
  | setDelayOn (led : String) (ms : ℤ)
  | setDelayOff (led : String) (ms : ℤ)
  | setColor (led : String) (color : RGB)
  | setBrightness (led : String) (value : ℤ)
  | runSmartctl (device : String)
deriving DecidableEq

/-- LED (or device, for `runSmartctl`) an event concerns. -/
def Event.ledName : Event → String
  | .setTrigger led _ => led
  | .setInvert led _ => led
  | .setDelayOn led _ => led
  | .setDelayOff led _ => led
  | .setColor led _ => led
  | .setBrightness led _ => led
  | .runSmartctl device => device

/-- Configuration fields of the disk monitor used by the modelled code, from
`config.DiskMonitorConfig`. -/
structure DiskMonitorConfig where
  mappingMethod : String
  colorDiskHealth : RGB
  colorDiskUnavail : RGB
  colorDiskStandby : RGB
  colorZpoolFail : RGB
  colorSmartFail : RGB
  brightnessDiskLeds : ℤ
deriving DecidableEq

/-- The default values installed by `Config.setDefaults` in config.go for the
fields modelled here. -/
def defaultDiskMonitorConfig : DiskMonitorConfig :=
  { mappingMethod := "ata"
    colorDiskHealth := ⟨255, 255, 255⟩
    colorDiskUnavail := ⟨255, 0, 0⟩
    colorDiskStandby := ⟨0, 0, 255⟩
    colorZpoolFail := ⟨255, 0, 0⟩
    colorSmartFail := ⟨255, 0, 0⟩
    brightnessDiskLeds := 255 }

/-- Per-disk state, from `type diskState struct` in the disk monitor, plus
`ledColor`: the current content of the LED's sysfs `color` attribute (world
state held behind the `led` handle of the Go struct; `SetColor` writes it). -/
structure DiskSt where
  ledName : String
  device : String
  lastStat : String
  zpoolFaulted : Bool
  smartFailed : Bool
  offline : Bool
  ledColor : String
deriving DecidableEq

/-- The health gate computed by the monitor loops:
`!state.smartFailed && !state.zpoolFaulted && !state.offline`. -/
def isHealthyDisk (s : DiskSt) : Bool := !s.smartFailed && !s.zpoolFaulted && !s.offline

/-- Bitwise AND NOT on naturals (Go's `&^` operator), written with explicit
fuel so the recursion is structural; `goAndNotAux fuel n m` is `n &^ m` once
`n ≤ fuel`. -/
def goAndNotAux : ℕ → ℕ → ℕ → ℕ
  | 0, _, _ => 0
  | fuel + 1, n, m =>
    (if n % 2 = 1 ∧ m % 2 = 0 then 1 else 0) + 2 * goAndNotAux fuel (n / 2) (m / 2)

/-- Go's `n &^ m` on naturals. -/
def goAndNot (n m : ℕ) : ℕ := goAndNotAux n n m

/-- Embedding of one iteration of the loop body of `checkSMART` in the disk
monitor, for one disk: skip the disk unless all failure flags are clear;
otherwise run `smartctl -H` (exit code `ret`, a parameter standing for the
external command's result) and, when `ret &^ 32 != 0`, set `smartFailed` and
write the SMART-fail color to the disk's LED. -/
def checkSMARTStep (cfg : DiskMonitorConfig) (s : DiskSt) (ret : ℕ) : DiskSt × List Event :=
  if !(isHealthyDisk s) then (s, [])
  else if goAndNot ret 32 ≠ 0 then
    ({ s with smartFailed := true, ledColor := rgbString cfg.colorSmartFail },
      [Event.runSmartctl s.device, Event.setColor s.ledName cfg.colorSmartFail])
  else (s, [Event.runSmartctl s.device])

/-- Embedding of `checkSMART`: fold `checkSMARTStep` over the monitored disk
table, with `smartRet` giving each device's `smartctl` exit code. -/
def checkSMART (cfg : DiskMonitorConfig) (smartRet : String → ℕ) :
    List DiskSt → List DiskSt × List Event
  | [] => ([], [])
  | s :: rest =>
    let step := checkSMARTStep cfg s (smartRet s.device)
    let tail := checkSMART cfg smartRet rest
    (step.1 :: tail.1, step.2 ++ tail.2)

/-- Devices for which `smartctl` was invoked, read off an event trace. -/
def smartInvocations (evs : List Event) : List String :=
  evs.filterMap fun e =>
    match e with
    | .runSmartctl device => some device
    | _ => none

/-- Predicate of the shell helper `is_disk_healthy_or_standby` that the spec
describes: the LED's current color equals the configured healthy color or the
configured standby color. Stated from the spec's words for comparison with
the Go code's gate; the Go `checkSMART` does not consult it. -/
def isDiskHealthyOrStandbyColor (cfg : DiskMonitorConfig) (color : String) : Bool :=
  color == rgbString cfg.colorDiskHealth || color == rgbString cfg.colorDiskStandby

/-- SMART-check set claimed by the spec: disks whose read-back LED color is
one of the two configured good colors. -/
def claimedSmartCheckSet (cfg : DiskMonitorConfig) (disks : List DiskSt) : List String :=
  (disks.filter fun s => isDiskHealthyOrStandbyColor cfg s.ledColor).map DiskSt.device

/-- Example monitored disk in the fully healthy state, as registered by
`initializeDisks` (LED color attribute holding the default healthy color). -/
def exDisk : DiskSt := ⟨"disk1", "sda", "", false, false, false, "255 255 255"⟩

/-- C1: for a disk that passes the health gate (so that `smartctl` runs and
an exit code `R` is obtained), `checkSMART` sets `smartFailed` and writes the
configured SMART-fail color exactly when `R &^ 32 != 0`; when `R &^ 32 == 0`
(in particular for `R = 0` and `R = 32`) the disk state and its LED are left
unchanged. -/
theorem checkSMART_flags_iff (cfg : DiskMonitorConfig) (s : DiskSt) (ret : ℕ)
    (h : isHealthyDisk s = true) :
    (((checkSMARTStep cfg s ret).1.smartFailed = true ∧
      (checkSMARTStep cfg s ret).2 =
        [Event.runSmartctl s.device, Event.setColor s.ledName cfg.colorSmartFail])
      ↔ goAndNot ret 32 ≠ 0)
    ∧ (goAndNot ret 32 = 0 →
        (checkSMARTStep cfg s ret).1 = s
        ∧ (checkSMARTStep cfg s ret).2 = [Event.runSmartctl s.device])
    ∧ goAndNot 0 32 = 0 ∧ goAndNot 32 32 = 0 := by
  have hsf : s.smartFailed = false := by
    simp only [isHealthyDisk, Bool.and_eq_true, Bool.not_eq_true'] at h
    exact h.1.1
  unfold checkSMARTStep
  rw [h]
  by_cases hr : goAndNot ret 32 = 0
  · exact ⟨by simp [hr, hsf], by simp [hr], by decide, by decide⟩
  · exact ⟨by simp [hr], by simp [hr], by decide, by decide⟩

/-- Witness for C1 at concrete inputs: exit code 33 flags a failure and
writes the SMART-fail color; exit code 32 (standby bit) changes nothing. -/
theorem checkSMART_flags_iff_witness :
    ((checkSMARTStep defaultDiskMonitorConfig exDisk 33).1.smartFailed = true
      ∧ (checkSMARTStep defaultDiskMonitorConfig exDisk 33).2 =
          [Event.runSmartctl "sda", Event.setColor "disk1" defaultDiskMonitorConfig.colorSmartFail])
    ∧ ((checkSMARTStep defaultDiskMonitorConfig exDisk 32).1 = exDisk
      ∧ (checkSMARTStep defaultDiskMonitorConfig exDisk 32).2 = [Event.runSmartctl "sda"]) :=
  ⟨(checkSMART_flags_iff defaultDiskMonitorConfig exDisk 33 (by decide)).1.mpr (by decide),
    (checkSMART_flags_iff defaultDiskMonitorConfig exDisk 32 (by decide)).2.1 (by decide)⟩

/-- C2 counterexample: a disk whose failure flags are all clear but whose LED
currently shows "255 0 0" (neither the configured healthy color
"255 255 255" nor the standby color "0 0 255"). The Go `checkSMART` still
invokes `smartctl` for it, so the invoked set is not the set of disks in a
good-or-standby color state. -/
def cexDisk : DiskSt := ⟨"disk1", "sda", "", false, false, false, "255 0 0"⟩

/-- C2 is false of the code: the SMART loop's gate is the internal flag
triple, not the read-back LED color. -/
theorem checkSMART_gate_cex :
    ¬ (smartInvocations (checkSMART defaultDiskMonitorConfig (fun _ => 0) [cexDisk]).2 =
        claimedSmartCheckSet defaultDiskMonitorConfig [cexDisk]) := by decide

/-- C2 (amended): on a SMART tick, `smartctl` is invoked exactly for the
disks whose `smartFailed`, `zpoolFaulted` and `offline` flags are all false;
the LED color attribute is not consulted. -/
theorem checkSMART_gate_is_flags (cfg : DiskMonitorConfig) (smartRet : String → ℕ)
    (disks : List DiskSt) :
    smartInvocations (checkSMART cfg smartRet disks).2 =
      (disks.filter isHealthyDisk).map DiskSt.device := by
  induction disks with
  | nil => rfl
  | cons s rest ih =>
    simp only [checkSMART, smartInvocations, List.filterMap_append, List.filter_cons]
    rw [smartInvocations] at ih
    by_cases hg : isHealthyDisk s = true
    · by_cases hr : goAndNot (smartRet s.device) 32 = 0 <;>
        simp [checkSMARTStep, hg, hr, ih]
    · simp only [Bool.not_eq_true] at hg
      simp [checkSMARTStep, hg, ih]

/-- Model of Go's `strings.TrimSpace` (ASCII whitespace). -/
def goTrim (s : String) : String :=
  ⟨((s.data.dropWhile isSpaceChar).reverse.dropWhile isSpaceChar).reverse⟩

/-- Model of Go's `strings.HasPrefix pre s` (argument order: prefix first). -/
def goStartsWith (pre s : String) : Bool := s.data.take pre.data.length == pre.data

/-- Model of `regexp.MustCompile(`\d+$`).ReplaceAllString(s, "")`: remove the
maximal trailing run of decimal digits. -/
def stripTrailingDigits (s : String) : String :=
  ⟨(s.data.reverse.dropWhile isDigitChar).reverse⟩

/-- LED lookup of `checkZpool` for one pool-reported device name: first the
zpool LED map under the full name, then under the base name (trailing digits
stripped), then the device-to-LED map under the base name. -/
def resolveZpoolLED (zpoolLEDMap deviceToLED : List (String × String))
    (zpoolDev : String) : Option String :=
  match zpoolLEDMap.lookup zpoolDev with
  | some led => some led
  | none =>
    let baseDev := stripTrailingDigits zpoolDev
    match zpoolLEDMap.lookup baseDev with
    | some led => some led
    | none => deviceToLED.lookup baseDev

/-- The failure states handled by the `checkZpool` switch. -/
def zpoolFailStates : List String := ["OFFLINE", "FAULTED", "UNAVAIL", "REMOVED", "CORRUPT"]

/-- The healthy states handled by the `checkZpool` switch. -/
def zpoolHealthyStates : List String := ["ONLINE", "AVAIL", "DEGRADED"]

/-- Embedding of the per-device body of `checkZpool`, after the device name
and state token have been extracted from a `zpool status -L` line and the LED
resolved: failure states write the pool-fail color and mark the device as
logged; `ONLINE`/`AVAIL`/`DEGRADED` write the healthy color only when the
LED's current color (read via `readColor`) equals the formatted pool-fail
color, and unmark the device; any other state token matches no switch case
and does nothing. Returns the LED events and the updated logged set. -/
def processZpoolEntry (cfg : DiskMonitorConfig)
    (zpoolLEDMap deviceToLED : List (String × String)) (readColor : String → String)
    (faultedLogged : List String) (zpoolDev state : String) : List Event × List String :=
  match resolveZpoolLED zpoolLEDMap deviceToLED zpoolDev with
  | none => ([], faultedLogged)
  | some ledName =>
    let currentColor := readColor ledName
    if state ∈ zpoolFailStates then
      ([Event.setColor ledName cfg.colorZpoolFail],
        if zpoolDev ∈ faultedLogged then faultedLogged else faultedLogged ++ [zpoolDev])
    else if state ∈ zpoolHealthyStates then
      ((if currentColor == rgbString cfg.colorZpoolFail
        then [Event.setColor ledName cfg.colorDiskHealth] else []),
        faultedLogged.filter fun d => d ≠ zpoolDev)
    else ([], faultedLogged)

/-- Embedding of the per-line processing of `checkZpool`: trim the line, skip
lines not starting with "sd" or "dm", split into fields, skip lines with
fewer than two fields, then hand the device name and trimmed state token to
`processZpoolEntry`. -/
def checkZpoolLine (cfg : DiskMonitorConfig)
    (zpoolLEDMap deviceToLED : List (String × String)) (readColor : String → String)
    (faultedLogged : List String) (rawLine : String) : List Event × List String :=
  let line := goTrim rawLine
  if !(goStartsWith "sd" line || goStartsWith "dm" line) then ([], faultedLogged)
  else
    match goFields line with
    | zpoolDev :: state :: _ =>
      processZpoolEntry cfg zpoolLEDMap deviceToLED readColor faultedLogged zpoolDev
        (goTrim state)
    | _ => ([], faultedLogged)

/-- Embedding of one line of `buildZpoolMapping`: trim, keep only lines
starting with "sd" or "dm", take the first field as the pool device name,
strip its trailing digits to get the base device, and when the base device is
in the device-to-LED map register the pool name (and, if different, the base
name) for that LED. -/
def buildZpoolMappingLine (deviceToLED : List (String × String))
    (zpoolLEDMap : List (String × String)) (rawLine : String) : List (String × String) :=
  let line := goTrim rawLine
  if !(goStartsWith "sd" line || goStartsWith "dm" line) then zpoolLEDMap
  else
    match goFields line with
    | [] => zpoolLEDMap
    | zpoolDev :: _ =>
      let baseDev := stripTrailingDigits zpoolDev
      match deviceToLED.lookup baseDev with
      | none => zpoolLEDMap
      | some ledName =>
        zpoolLEDMap ++ [(zpoolDev, ledName)]
          ++ (if zpoolDev ≠ baseDev then [(baseDev, ledName)] else [])

/-- Embedding of `buildZpoolMapping` over the lines of `zpool status -L`. -/
def buildZpoolMapping (deviceToLED : List (String × String)) (lines : List String) :
    List (String × String) :=
  lines.foldl (buildZpoolMappingLine deviceToLED) []

/-- C3 counterexample: a pool line for `sda` with the unrecognized state
token `INUSE`, while the LED for `sda` currently shows the pool-fail color
and `sda` is marked as already logged. The claim says the device is treated
as healthy (healthy color written, logged flag cleared); the Go switch has no
case for `INUSE`, so nothing is written and the flag stays. -/
theorem checkZpool_unrecognized_state_cex :
    ¬ ((checkZpoolLine defaultDiskMonitorConfig [("sda", "disk1")] [] (fun _ => "255 0 0")
          ["sda"] "  sda  INUSE  0  0  0").1 =
        [Event.setColor "disk1" defaultDiskMonitorConfig.colorDiskHealth]
      ∧ (checkZpoolLine defaultDiskMonitorConfig [("sda", "disk1")] [] (fun _ => "255 0 0")
          ["sda"] "  sda  INUSE  0  0  0").2 = []) := by decide

/-- C3 (amended): for a resolved device line, a state token among
`ONLINE`/`AVAIL`/`DEGRADED` writes the configured healthy color exactly when
the LED's current color equals the formatted pool-fail color and clears the
device's already-logged flag; a state token outside both the failure set and
the healthy set causes no write and no flag change. -/
theorem checkZpool_healthy_branch (cfg : DiskMonitorConfig)
    (zmap devToLED : List (String × String)) (readColor : String → String)
    (logged : List String) (zpoolDev state led : String)
    (hres : resolveZpoolLED zmap devToLED zpoolDev = some led) :
    (state ∈ zpoolHealthyStates →
      (processZpoolEntry cfg zmap devToLED readColor logged zpoolDev state).1 =
        (if readColor led == rgbString cfg.colorZpoolFail
          then [Event.setColor led cfg.colorDiskHealth] else [])
      ∧ (processZpoolEntry cfg zmap devToLED readColor logged zpoolDev state).2 =
          (logged.filter fun d => d ≠ zpoolDev))
    ∧ (state ∉ zpoolFailStates → state ∉ zpoolHealthyStates →
        processZpoolEntry cfg zmap devToLED readColor logged zpoolDev state =
          ([], logged)) := by
  unfold processZpoolEntry
  rw [hres]
  constructor
  · intro hh
    have hf : state ∉ zpoolFailStates := by
      simp only [zpoolHealthyStates, List.mem_cons, List.not_mem_nil, or_false] at hh
      rcases hh with rfl | rfl | rfl <;> decide
    simp [hf, hh]
  · intro hf hh
    simp [hf, hh]

/-- Witness for C3 at concrete inputs: for `sda` reported `ONLINE` while its
LED shows the pool-fail color, the healthy color is written and the logged
flag is cleared; for state `INUSE` nothing happens. -/
theorem checkZpool_healthy_branch_witness :
    ((processZpoolEntry defaultDiskMonitorConfig [("sda", "disk1")] [] (fun _ => "255 0 0")
        ["sda"] "sda" "ONLINE").1 =
      (if (fun _ => "255 0 0") "disk1" == rgbString defaultDiskMonitorConfig.colorZpoolFail
        then [Event.setColor "disk1" defaultDiskMonitorConfig.colorDiskHealth] else [])
    ∧ (processZpoolEntry defaultDiskMonitorConfig [("sda", "disk1")] [] (fun _ => "255 0 0")
        ["sda"] "sda" "ONLINE").2 = (["sda"].filter fun d => d ≠ "sda"))
    ∧ processZpoolEntry defaultDiskMonitorConfig [("sda", "disk1")] [] (fun _ => "255 0 0")
        ["sda"] "sda" "INUSE" = ([], ["sda"]) :=
  ⟨(checkZpool_healthy_branch defaultDiskMonitorConfig [("sda", "disk1")] []
      (fun _ => "255 0 0") ["sda"] "sda" "ONLINE" "disk1" (by decide)).1 (by decide),
    (checkZpool_healthy_branch defaultDiskMonitorConfig [("sda", "disk1")] []
      (fun _ => "255 0 0") ["sda"] "sda" "INUSE" "disk1" (by decide)).2 (by decide) (by decide)⟩

/-- C4: `buildZpoolMapping` resolves a device-mapper name only by stripping
its trailing digits — `dm-0` becomes `dm-`, which can never be a key of the
device-to-LED map — and never consults the mapper device's slave list, so a
dm-backed pool member (here `dm-0` over `sda`, with `sda` mapped to `disk1`)
registers no LED mapping at all. -/
theorem buildZpoolMapping_dm_never_resolves :
    stripTrailingDigits "dm-0" = "dm-"
    ∧ buildZpoolMapping [("sda", "disk1")]
        ["          dm-0      ONLINE       0     0     0"] = [] := by decide

/-- The fixed slot LED list of `initializeDisks`. -/
def diskLedMap : List String :=
  ["disk1", "disk2", "disk3", "disk4", "disk5", "disk6", "disk7", "disk8"]

/-- Default ata key order. -/
def ataDefaultMapping : List String :=
  ["ata1", "ata2", "ata3", "ata4", "ata5", "ata6", "ata7", "ata8"]

/-- Model-specific ata key order for DXP6800-series hardware. -/
def ataDXP6800Mapping : List String := ["ata3", "ata4", "ata5", "ata6", "ata1", "ata2"]

/-- Default hctl key order. -/
def hctlDefaultMapping : List String :=
  ["0:0:0:0", "1:0:0:0", "2:0:0:0", "3:0:0:0", "4:0:0:0", "5:0:0:0", "6:0:0:0", "7:0:0:0"]

/-- Model-specific hctl key order for DXP6800-series hardware. -/
def hctlDXP6800Mapping : List String :=
  ["2:0:0:0", "3:0:0:0", "4:0:0:0", "5:0:0:0", "0:0:0:0", "1:0:0:0"]

/-- The external inputs consumed by `initializeDisks`: the `dmidecode`
product name ("" when the command fails), existence of each slot LED under
/sys/class/leds, existence of each device's stat node under
/sys/class/block, and the result of `enumerateDisks` (a key-to-device map
built from /sys/block symlinks or `lsblk` output, or that command's error). -/
structure InitWorld where
  productName : String
  ledExists : String → Bool
  deviceHasStat : String → Bool
  enumerateDisksResult : Except String (List (String × String))

/-- The mapping-selection switch of `initializeDisks`: the ata and hctl modes
use a fixed key order, replaced by the DXP6800 permutation when the product
name (if obtained) starts with "DXP6800"; the serial mode splits the
`DISK_SERIAL` environment value and fails when it is empty; any other method
is rejected. -/
def computeMapping (method serialEnv productName : String) : Except String (List String) :=
  if method = "ata" then
    .ok (if productName ≠ "" then
          (if goStartsWith "DXP6800" productName then ataDXP6800Mapping else ataDefaultMapping)
        else ataDefaultMapping)
  else if method = "hctl" then
    .ok (if productName ≠ "" then
          (if goStartsWith "DXP6800" productName then hctlDXP6800Mapping else hctlDefaultMapping)
        else hctlDefaultMapping)
  else if method = "serial" then
    (if serialEnv ≠ "" then .ok (goFields serialEnv)
      else .error "serial mapping method requires DISK_SERIAL environment variable")
  else .error ("unsupported mapping method: " ++ method)

/-- Per-slot body of the LED initialization loop of `initializeDisks`: a
missing LED is skipped; an existing LED is initialized (oneshot trigger,
invert, 100ms delays, healthy color, configured brightness); when the slot's
key has no device, or the device has no stat node, the LED is turned back off
and the slot is not registered; otherwise the (LED, device) pair is
registered. LED writes are modelled as succeeding. -/
def ledInitSlot (cfg : DiskMonitorConfig) (w : InitWorld)
    (devMap : List (String × String)) (key ledName : String) :
    List Event × Option (String × String) :=
  if !(w.ledExists ledName) then ([], none)
  else
    let initEvents : List Event :=
      [Event.setTrigger ledName "oneshot", Event.setInvert ledName 1,
        Event.setDelayOn ledName 100, Event.setDelayOff ledName 100,
        Event.setColor ledName cfg.colorDiskHealth,
        Event.setBrightness ledName cfg.brightnessDiskLeds]
    match devMap.lookup key with
    | none =>
      (initEvents ++ [Event.setBrightness ledName 0, Event.setTrigger ledName "none"], none)
    | some device =>
      if !(w.deviceHasStat device) then
        (initEvents ++ [Event.setBrightness ledName 0, Event.setTrigger ledName "none"], none)
      else (initEvents, some (ledName, device))

/-- The LED initialization loop of `initializeDisks` over the slot LED list,
carrying the slot index; the loop breaks as soon as the index reaches the
length of the key mapping. -/
def initLoop (cfg : DiskMonitorConfig) (w : InitWorld) (devMap : List (String × String))
    (mapping : List String) : ℕ → List String → List Event × List (String × String)
  | _, [] => ([], [])
  | i, ledName :: rest =>
    if mapping.length ≤ i then ([], [])
    else
      let slot := ledInitSlot cfg w devMap (mapping.getD i "") ledName
      let tail := initLoop cfg w devMap mapping (i + 1) rest
      (slot.1 ++ tail.1, slot.2.toList ++ tail.2)

/-- Embedding of `initializeDisks`: enumerate devices, select the key
mapping (this is where the serial mode can fail), then run the LED loop.
The result is the registered (LED, device) pairs (or the error) together
with the trace of LED writes performed. -/
def initializeDisks (cfg : DiskMonitorConfig) (serialEnv : String) (w : InitWorld) :
    Except String (List (String × String)) × List Event :=
  match w.enumerateDisksResult with
  | .error e => (.error e, [])
  | .ok devMap =>
    match computeMapping cfg.mappingMethod serialEnv w.productName with
    | .error e => (.error e, [])
    | .ok mapping =>
      let result := initLoop cfg w devMap mapping 0 diskLedMap
      (.ok result.2, result.1)

/-- C7: with the serial addressing mode configured and an empty (or absent)
`DISK_SERIAL` value, `initializeDisks` performs no LED write at all, and —
whenever device enumeration itself succeeded — fails with the configuration
error about the missing serial list. -/
theorem initializeDisks_serial_requires_env (cfg : DiskMonitorConfig) (w : InitWorld)
    (hm : cfg.mappingMethod = "serial") :
    (initializeDisks cfg "" w).2 = []
    ∧ ∀ devMap, w.enumerateDisksResult = .ok devMap →
        initializeDisks cfg "" w =
          (.error "serial mapping method requires DISK_SERIAL environment variable", []) := by
  have hcm : computeMapping cfg.mappingMethod "" w.productName =
      .error "serial mapping method requires DISK_SERIAL environment variable" := by
    rw [hm]
    unfold computeMapping
    simp
  unfold initializeDisks
  cases h : w.enumerateDisksResult with
  | error e => exact ⟨rfl, fun devMap hd => Except.noConfusion hd⟩
  | ok devMap => exact ⟨by rw [hcm], fun devMap2 hd => by rw [hcm]⟩

/-- Configuration for the serial addressing mode, otherwise default. -/
def serialCfg : DiskMonitorConfig := { defaultDiskMonitorConfig with mappingMethod := "serial" }

/-- World for the C7 witness: enumeration succeeded, every LED and device
node present. -/
def serialWorld : InitWorld :=
  { productName := ""
    ledExists := fun _ => true
    deviceHasStat := fun _ => true
    enumerateDisksResult := .ok [("SERIAL123", "sda")] }

/-- Witness for C7 at a concrete configuration and world. -/
theorem initializeDisks_serial_requires_env_witness :
    (initializeDisks serialCfg "" serialWorld).2 = []
    ∧ initializeDisks serialCfg "" serialWorld =
        (.error "serial mapping method requires DISK_SERIAL environment variable", []) :=
  ⟨(initializeDisks_serial_requires_env serialCfg serialWorld rfl).1,
    (initializeDisks_serial_requires_env serialCfg serialWorld rfl).2
      [("SERIAL123", "sda")] rfl⟩

theorem ledInitSlot_ledName (cfg : DiskMonitorConfig) (w : InitWorld)
    (devMap : List (String × String)) (key ledName : String) :
    (∀ e ∈ (ledInitSlot cfg w devMap key ledName).1, e.ledName = ledName)
    ∧ ∀ p ∈ (ledInitSlot cfg w devMap key ledName).2.toList, p.1 = ledName := by
  unfold ledInitSlot
  by_cases hex : w.ledExists ledName = true
  · simp only [hex, Bool.not_true, Bool.false_eq_true, if_false]
    rcases hlk : devMap.lookup key with _ | device
    · constructor
      · intro e he
        fin_cases he <;> rfl
      · intro p hp
        simp at hp
    · by_cases hst : w.deviceHasStat device = true
      · simp only [hst, Bool.not_true, Bool.false_eq_true, if_false]
        constructor
        · intro e he
          fin_cases he <;> rfl
        · intro p hp
          fin_cases hp
          rfl
      · simp only [Bool.not_eq_true] at hst
        simp only [hst, Bool.not_false, if_true]
        constructor
        · intro e he
          fin_cases he <;> rfl
        · intro p hp
          simp at hp
  · simp only [Bool.not_eq_true] at hex
    simp [hex]

theorem initLoop_slots (cfg : DiskMonitorConfig) (w : InitWorld)
    (devMap : List (String × String)) (mapping : List String) :
    ∀ (leds : List String) (i : ℕ),
      (∀ e ∈ (initLoop cfg w devMap mapping i leds).1,
        e.ledName ∈ leds.take (mapping.length - i))
      ∧ ∀ p ∈ (initLoop cfg w devMap mapping i leds).2,
          p.1 ∈ leds.take (mapping.length - i) := by
  intro leds
  induction leds with
  | nil => intro i; simp [initLoop]
  | cons led rest ih =>
    intro i
    by_cases hbreak : mapping.length ≤ i
    · simp [initLoop, hbreak]
    · have htake : (led :: rest).take (mapping.length - i)
          = led :: rest.take (mapping.length - (i + 1)) := by
        have hstep : mapping.length - i = (mapping.length - (i + 1)) + 1 := by omega
        rw [hstep, List.take_succ_cons]
      simp only [initLoop, hbreak, if_false, htake]
      constructor
      · intro e he
        rw [List.mem_append] at he
        rcases he with he | he
        · rw [(ledInitSlot_ledName cfg w devMap (mapping.getD i "") led).1 e he]
          exact List.mem_cons_self led _
        · exact List.mem_cons_of_mem led ((ih (i + 1)).1 e he)
      · intro p hp
        rw [List.mem_append] at hp
        rcases hp with hp | hp
        · rw [(ledInitSlot_ledName cfg w devMap (mapping.getD i "") led).2 p hp]
          exact List.mem_cons_self led _
        · exact List.mem_cons_of_mem led ((ih (i + 1)).2 p hp)

/-- C10: every LED write and every registration of `initializeDisks` goes to a
slot LED whose index is below the length of the key mapping; in particular,
with the 6-element DXP6800 ata mapping in effect, `disk7` and `disk8` are
never written and never registered. -/
theorem initializeDisks_slots_beyond_mapping (cfg : DiskMonitorConfig) (serialEnv : String)
    (w : InitWorld) (devMap : List (String × String)) (mapping : List String)
    (henum : w.enumerateDisksResult = .ok devMap)
    (hmap : computeMapping cfg.mappingMethod serialEnv w.productName = .ok mapping) :
    ((∀ e ∈ (initializeDisks cfg serialEnv w).2, e.ledName ∈ diskLedMap.take mapping.length)
      ∧ ∀ regs, (initializeDisks cfg serialEnv w).1 = .ok regs →
          ∀ p ∈ regs, p.1 ∈ diskLedMap.take mapping.length)
    ∧ (cfg.mappingMethod = "ata" → goStartsWith "DXP6800" w.productName = true →
        ∀ e ∈ (initializeDisks cfg serialEnv w).2,
          e.ledName ≠ "disk7" ∧ e.ledName ≠ "disk8") := by
  have hrun : initializeDisks cfg serialEnv w =
      (.ok (initLoop cfg w devMap mapping 0 diskLedMap).2,
        (initLoop cfg w devMap mapping 0 diskLedMap).1) := by
    unfold initializeDisks
    rw [henum, hmap]
  have hslots := initLoop_slots cfg w devMap mapping diskLedMap 0
  rw [Nat.sub_zero] at hslots
  constructor
  · constructor
    · intro e he
      rw [hrun] at he
      exact hslots.1 e he
    · intro regs hregs e he
      rw [hrun] at hregs
      cases hregs
      exact hslots.2 e he
  · intro hmeth hdxp e he
    have hpn : w.productName ≠ "" := by
      intro hcontra
      rw [hcontra] at hdxp
      exact absurd hdxp (by decide)
    have hmapping : mapping = ataDXP6800Mapping := by
      rw [hmeth] at hmap
      unfold computeMapping at hmap
      rw [if_pos rfl, if_pos hpn, if_pos hdxp] at hmap
      cases hmap
      rfl
    have hmem : e.ledName ∈ diskLedMap.take mapping.length := by
      rw [hrun] at he
      exact hslots.1 e he
    rw [hmapping, show diskLedMap.take ataDXP6800Mapping.length =
        ["disk1", "disk2", "disk3", "disk4", "disk5", "disk6"] from by decide] at hmem
    simp only [List.mem_cons, List.not_mem_nil, or_false] at hmem
    rcases hmem with h | h | h | h | h | h <;> rw [h] <;> exact ⟨by decide, by decide⟩

/-- Configuration and world for the C10 witness: ata mode on DXP6800-series
hardware (6-element mapping), all LEDs present, one disk found on `ata3`. -/
def dxpWorld : InitWorld :=
  { productName := "DXP6800 Pro"
    ledExists := fun _ => true
    deviceHasStat := fun _ => true
    enumerateDisksResult := .ok [("ata3", "sda")] }

/-- Witness for C10 at the concrete DXP6800 world: the very first LED write
of the trace targets a slot LED within the 6-element mapping and is neither
`disk7` nor `disk8`, and the single registered pair also lies within the
mapping. -/
theorem initializeDisks_slots_beyond_mapping_witness :
    (Event.setTrigger "disk1" "oneshot").ledName ∈ diskLedMap.take ataDXP6800Mapping.length
    ∧ ("disk1", "sda").1 ∈ diskLedMap.take ataDXP6800Mapping.length
    ∧ ((Event.setTrigger "disk1" "oneshot").ledName ≠ "disk7"
        ∧ (Event.setTrigger "disk1" "oneshot").ledName ≠ "disk8") :=
  ⟨(initializeDisks_slots_beyond_mapping defaultDiskMonitorConfig "" dxpWorld
      [("ata3", "sda")] ataDXP6800Mapping rfl rfl).1.1
      (Event.setTrigger "disk1" "oneshot") (by decide),
    (initializeDisks_slots_beyond_mapping defaultDiskMonitorConfig "" dxpWorld
      [("ata3", "sda")] ataDXP6800Mapping rfl rfl).1.2
      (initLoop defaultDiskMonitorConfig dxpWorld [("ata3", "sda")] ataDXP6800Mapping 0
        diskLedMap).2 rfl ("disk1", "sda") (by decide),
    (initializeDisks_slots_beyond_mapping defaultDiskMonitorConfig "" dxpWorld
      [("ata3", "sda")] ataDXP6800Mapping rfl rfl).2 rfl (by decide)
      (Event.setTrigger "disk1" "oneshot") (by decide)⟩

/-- Unnormalized fraction, the model used here for Go `float64` values in the
network monitor: every quantity the monitor computes is a ratio of machine
integers, and every concrete value exercised by the verified properties is
exactly representable, so exact fraction arithmetic is faithful. -/
structure Frac where
  num : ℤ
  den : ℤ
deriving DecidableEq

/-- Conversion of an integer (Go `float64(i)`). -/
def Frac.ofInt (z : ℤ) : Frac := ⟨z, 1⟩

/-- Fraction addition. -/
def Frac.add (x y : Frac) : Frac := ⟨x.num * y.den + y.num * x.den, x.den * y.den⟩

/-- Fraction subtraction. -/
def Frac.sub (x y : Frac) : Frac := ⟨x.num * y.den - y.num * x.den, x.den * y.den⟩

/-- Fraction multiplication. -/
def Frac.mul (x y : Frac) : Frac := ⟨x.num * y.num, x.den * y.den⟩

/-- Fraction division. -/
def Frac.div (x y : Frac) : Frac := ⟨x.num * y.den, x.den * y.num⟩

/-- Test for a negative fraction (`percentage < 0`). -/
def Frac.isNeg (x : Frac) : Bool := decide (x.num * x.den < 0)

/-- Test for a fraction greater than one (`percentage > 1`). -/
def Frac.gtOne (x : Frac) : Bool := decide ((x.num - x.den) * x.den > 0)

/-- Truncation toward zero, Go's `int(x)` conversion from `float64`. -/
def Frac.trunc (x : Frac) : ℤ := (x.num * x.den).sign * (x.num.natAbs / x.den.natAbs : ℕ)

/-- The two clamping ifs of `getDynamicColor`: clamp a ratio into [0, 1]. -/
def clamp01 (p : Frac) : Frac :=
  if p.isNeg then Frac.ofInt 0 else if p.gtOne then Frac.ofInt 1 else p

/-- One channel of the interpolation of `getDynamicColor`:
`int(float64(lo) + percentage * float64(hi - lo))`. -/
def interpChannel (lo hi : ℤ) (percentage : Frac) : ℤ :=
  ((Frac.ofInt lo).add (percentage.mul (Frac.ofInt (hi - lo)))).trunc

/-- Configuration fields of the network monitor used by the modelled code,
from `config.NetworkMonitorConfig` (a `none` tier color models a nil `*RGB`
pointer, i.e. the tier color is not configured). -/
structure NetworkMonitorConfig where
  colorNormal : RGB
  colorLinkPurpleDefault : RGB
  colorLink100 : Option RGB
  colorLink1000 : Option RGB
  colorLink2000 : Option RGB
  colorLink2500 : Option RGB
  colorLink5000 : Option RGB
  colorLink10000 : Option RGB
  checkLinkSpeedDynamicColorLow : RGB
  checkLinkSpeedDynamicColorHigh : RGB
  checkLinkSpeedDynamicSpeedLow : ℤ
  checkLinkSpeedDynamicSpeedHigh : ℤ
deriving DecidableEq

/-- Embedding of `getLinkSpeedColor` from `internal/netmon`: `speedRead` is
the result of `getLinkSpeed` (`none` models its error return, on which the
flat normal color is used); known speeds select their configured tier color
or fall back as in the Go switch; unknown speeds use the flat normal
color. -/
def getLinkSpeedColor (cfg : NetworkMonitorConfig) (speedRead : Option ℤ) : RGB :=
  match speedRead with
  | none => cfg.colorNormal
  | some speed =>
    if speed = 100 then
      match cfg.colorLink100 with
      | some c => c
      | none => cfg.colorNormal
    else if speed = 1000 then
      match cfg.colorLink1000 with
      | some c => c
      | none => cfg.colorNormal
    else if speed = 2000 then
      match cfg.colorLink2000 with
      | some c => c
      | none => cfg.colorLinkPurpleDefault
    else if speed = 2500 then
      match cfg.colorLink2500 with
      | some c => c
      | none => cfg.colorNormal
    else if speed = 5000 then
      match cfg.colorLink5000 with
      | some c => c
      | none =>
        match cfg.colorLink10000 with
        | some c => c
        | none => cfg.colorLinkPurpleDefault
    else if speed = 10000 then
      match cfg.colorLink10000 with
      | some c => c
      | none =>
        match cfg.colorLink5000 with
        | some c => c
        | none => cfg.colorLinkPurpleDefault
    else cfg.colorNormal

/-- Embedding of `getDynamicColor` from `internal/netmon`: `none` (read
failure) and equal thresholds fall back to the flat normal color; otherwise
each channel is linearly interpolated by the clamped ratio and truncated. -/
def getDynamicColor (cfg : NetworkMonitorConfig) (speedRead : Option ℤ) : RGB :=
  match speedRead with
  | none => cfg.colorNormal
  | some speed =>
    if cfg.checkLinkSpeedDynamicSpeedHigh = cfg.checkLinkSpeedDynamicSpeedLow then
      cfg.colorNormal
    else
      let percentage := clamp01
        (((Frac.ofInt speed).sub (Frac.ofInt cfg.checkLinkSpeedDynamicSpeedLow)).div
          ((Frac.ofInt cfg.checkLinkSpeedDynamicSpeedHigh).sub
            (Frac.ofInt cfg.checkLinkSpeedDynamicSpeedLow)))
      { R := interpChannel cfg.checkLinkSpeedDynamicColorLow.R
          cfg.checkLinkSpeedDynamicColorHigh.R percentage
        G := interpChannel cfg.checkLinkSpeedDynamicColorLow.G
          cfg.checkLinkSpeedDynamicColorHigh.G percentage
        B := interpChannel cfg.checkLinkSpeedDynamicColorLow.B
          cfg.checkLinkSpeedDynamicColorHigh.B percentage }

/-- The dynamic gradient as worded by the spec: each channel is
`lowColor + clamp((speed - lowThreshold)/(highThreshold - lowThreshold), 0, 1)
* (highColor - lowColor)`, truncated to an integer; equal thresholds or a
failed speed read give the flat normal color. Stated from the spec's words
for comparison with the code's `getDynamicColor`. -/
def gradientColorPerSpec (cfg : NetworkMonitorConfig) (speedRead : Option ℤ) : RGB :=
  match speedRead with
  | none => cfg.colorNormal
  | some speed =>
    if cfg.checkLinkSpeedDynamicSpeedLow = cfg.checkLinkSpeedDynamicSpeedHigh then
      cfg.colorNormal
    else
      let t := clamp01
        (((Frac.ofInt speed).sub (Frac.ofInt cfg.checkLinkSpeedDynamicSpeedLow)).div
          ((Frac.ofInt cfg.checkLinkSpeedDynamicSpeedHigh).sub
            (Frac.ofInt cfg.checkLinkSpeedDynamicSpeedLow)))
      { R := interpChannel cfg.checkLinkSpeedDynamicColorLow.R
          cfg.checkLinkSpeedDynamicColorHigh.R t
        G := interpChannel cfg.checkLinkSpeedDynamicColorLow.G
          cfg.checkLinkSpeedDynamicColorHigh.G t
        B := interpChannel cfg.checkLinkSpeedDynamicColorLow.B
          cfg.checkLinkSpeedDynamicColorHigh.B t }

theorem getDynamicColor_matches_spec (cfg : NetworkMonitorConfig) (sr : Option ℤ) :
    getDynamicColor cfg sr = gradientColorPerSpec cfg sr := by
  cases sr with
  | none => rfl
  | some s =>
    simp only [getDynamicColor, gradientColorPerSpec]
    by_cases h : cfg.checkLinkSpeedDynamicSpeedHigh = cfg.checkLinkSpeedDynamicSpeedLow
    · rw [if_pos h, if_pos h.symm]
    · rw [if_neg h, if_neg fun hh => h hh.symm]

/-- C5: on a successful speed read, the exact tier values map to their
configured colors when set; on a missing tier color, 2000 falls back to the
purple default, 5000 falls back to the 10000 tier color and then the purple
default, 10000 falls back to the 5000 tier color and then the purple default,
and 100/1000/2500 fall back to the flat normal color; any other speed, and a
failed read, give the flat normal color. -/
theorem getLinkSpeedColor_tiers (cfg : NetworkMonitorConfig) :
    (getLinkSpeedColor cfg none = cfg.colorNormal)
    ∧ (∀ c, cfg.colorLink100 = some c → getLinkSpeedColor cfg (some 100) = c)
    ∧ (∀ c, cfg.colorLink1000 = some c → getLinkSpeedColor cfg (some 1000) = c)
    ∧ (∀ c, cfg.colorLink2000 = some c → getLinkSpeedColor cfg (some 2000) = c)
    ∧ (∀ c, cfg.colorLink2500 = some c → getLinkSpeedColor cfg (some 2500) = c)
    ∧ (∀ c, cfg.colorLink5000 = some c → getLinkSpeedColor cfg (some 5000) = c)
    ∧ (∀ c, cfg.colorLink10000 = some c → getLinkSpeedColor cfg (some 10000) = c)
    ∧ (cfg.colorLink100 = none → getLinkSpeedColor cfg (some 100) = cfg.colorNormal)
    ∧ (cfg.colorLink1000 = none → getLinkSpeedColor cfg (some 1000) = cfg.colorNormal)
    ∧ (cfg.colorLink2500 = none → getLinkSpeedColor cfg (some 2500) = cfg.colorNormal)
    ∧ (cfg.colorLink2000 = none →
        getLinkSpeedColor cfg (some 2000) = cfg.colorLinkPurpleDefault)
    ∧ (cfg.colorLink5000 = none → ∀ c, cfg.colorLink10000 = some c →
        getLinkSpeedColor cfg (some 5000) = c)
    ∧ (cfg.colorLink5000 = none → cfg.colorLink10000 = none →
        getLinkSpeedColor cfg (some 5000) = cfg.colorLinkPurpleDefault)
    ∧ (cfg.colorLink10000 = none → ∀ c, cfg.colorLink5000 = some c →
        getLinkSpeedColor cfg (some 10000) = c)
    ∧ (cfg.colorLink10000 = none → cfg.colorLink5000 = none →
        getLinkSpeedColor cfg (some 10000) = cfg.colorLinkPurpleDefault)
    ∧ ∀ s : ℤ, s ∉ ([100, 1000, 2000, 2500, 5000, 10000] : List ℤ) →
        getLinkSpeedColor cfg (some s) = cfg.colorNormal := by
  refine ⟨rfl, fun c hc => by simp [getLinkSpeedColor, hc],
    fun c hc => by simp [getLinkSpeedColor, hc],
    fun c hc => by simp [getLinkSpeedColor, hc],
    fun c hc => by simp [getLinkSpeedColor, hc],
    fun c hc => by simp [getLinkSpeedColor, hc],
    fun c hc => by simp [getLinkSpeedColor, hc],
    fun h => by simp [getLinkSpeedColor, h],
    fun h => by simp [getLinkSpeedColor, h],
    fun h => by simp [getLinkSpeedColor, h],
    fun h => by simp [getLinkSpeedColor, h],
    fun h5 c h10 => by simp [getLinkSpeedColor, h5, h10],
    fun h5 h10 => by simp [getLinkSpeedColor, h5, h10],
    fun h10 c h5 => by simp [getLinkSpeedColor, h5, h10],
    fun h10 h5 => by simp [getLinkSpeedColor, h5, h10], ?_⟩
  intro s hs
  simp only [List.mem_cons, List.not_mem_nil, or_false, not_or] at hs
  obtain ⟨h1, h2, h3, h4, h5, h6⟩ := hs
  simp [getLinkSpeedColor, h1, h2, h3, h4, h5, h6]

/-- Configuration for the C5 witness, taken from the spec's example: tier
color (100,100,100) configured for speed 100, no tier color for 2000. -/
def tierCfg : NetworkMonitorConfig :=
  { colorNormal := ⟨255, 255, 255⟩
    colorLinkPurpleDefault := ⟨128, 0, 128⟩
    colorLink100 := some ⟨100, 100, 100⟩
    colorLink1000 := none
    colorLink2000 := none
    colorLink2500 := none
    colorLink5000 := none
    colorLink10000 := none
    checkLinkSpeedDynamicColorLow := ⟨255, 0, 0⟩
    checkLinkSpeedDynamicColorHigh := ⟨0, 255, 0⟩
    checkLinkSpeedDynamicSpeedLow := 0
    checkLinkSpeedDynamicSpeedHigh := 10000 }

/-- Witness for C5 at the spec's concrete examples: speed 100 with tier color
(100,100,100) returns it, speed 2000 with no tier color returns the purple
default, and the unknown speed 25000 returns the flat normal color. -/
theorem getLinkSpeedColor_tiers_witness :
    getLinkSpeedColor tierCfg (some 100) = ⟨100, 100, 100⟩
    ∧ getLinkSpeedColor tierCfg (some 2000) = tierCfg.colorLinkPurpleDefault
    ∧ getLinkSpeedColor tierCfg (some 25000) = tierCfg.colorNormal :=
  ⟨(getLinkSpeedColor_tiers tierCfg).2.1 ⟨100, 100, 100⟩ rfl,
    (getLinkSpeedColor_tiers tierCfg).2.2.2.2.2.2.2.2.2.2.1 rfl,
    (getLinkSpeedColor_tiers tierCfg).2.2.2.2.2.2.2.2.2.2.2.2.2.2.2 25000 (by decide)⟩

/-- Configuration for the C6 examples, from the spec: thresholds 0 and 10000,
low color red, high color green. -/
def gradCfg : NetworkMonitorConfig :=
  { colorNormal := ⟨255, 255, 255⟩
    colorLinkPurpleDefault := ⟨128, 0, 128⟩
    colorLink100 := none
    colorLink1000 := none
    colorLink2000 := none
    colorLink2500 := none
    colorLink5000 := none
    colorLink10000 := none
    checkLinkSpeedDynamicColorLow := ⟨255, 0, 0⟩
    checkLinkSpeedDynamicColorHigh := ⟨0, 255, 0⟩
    checkLinkSpeedDynamicSpeedLow := 0
    checkLinkSpeedDynamicSpeedHigh := 10000 }

/-- Degenerate configuration with equal thresholds, for the C6 witness. -/
def degenerateGradCfg : NetworkMonitorConfig :=
  { gradCfg with checkLinkSpeedDynamicSpeedHigh := 0 }

/-- C6: the dynamic gradient color of the code equals, at every input, the
spec's formula (each channel `lowColor + clamp((speed - low)/(high - low),
0, 1) * (highColor - lowColor)` truncated, with equal thresholds and read
failure giving the flat normal color), and takes the spec's concrete values
at thresholds 0/10000 with red-to-green endpoints. -/
theorem getDynamicColor_gradient :
    (∀ (cfg : NetworkMonitorConfig) (sr : Option ℤ),
      getDynamicColor cfg sr = gradientColorPerSpec cfg sr)
    ∧ getDynamicColor gradCfg (some 0) = ⟨255, 0, 0⟩
    ∧ getDynamicColor gradCfg (some 10000) = ⟨0, 255, 0⟩
    ∧ getDynamicColor gradCfg (some 5000) = ⟨127, 127, 0⟩
    ∧ getDynamicColor gradCfg (some (-1000)) = ⟨255, 0, 0⟩
    ∧ getDynamicColor gradCfg (some 20000) = ⟨0, 255, 0⟩
    ∧ getDynamicColor gradCfg none = gradCfg.colorNormal
    ∧ ∀ (cfg : NetworkMonitorConfig) (s : ℤ),
        cfg.checkLinkSpeedDynamicSpeedHigh = cfg.checkLinkSpeedDynamicSpeedLow →
          getDynamicColor cfg (some s) = cfg.colorNormal :=
  ⟨getDynamicColor_matches_spec, by decide, by decide, by decide, by decide, by decide, rfl,
    fun cfg s h => by simp [getDynamicColor, h]⟩

/-- Witness for C6 at a degenerate configuration: equal thresholds give the
flat normal color. -/
theorem getDynamicColor_gradient_witness :
    getDynamicColor degenerateGradCfg (some 1234) = degenerateGradCfg.colorNormal :=
  getDynamicColor_gradient.2.2.2.2.2.2.2 degenerateGradCfg 1234 rfl
